import Mathlib

/-!
# Verification of the b2-client account module

A shallow embedding of `src/account.rs` of the `b2-client` crate: the
capability enumeration, the validated request builders for key creation and
download authorization, the `Duration` wire adapter, and the untagged
success/error response envelope, together with theorems about their
validation behaviour.

Conventions:
* Rust `Result<T, ValidationError>` becomes `Except ValidationError T`.
* `chrono::Duration` is represented by its total signed count of nanoseconds
  (an `Int`); chrono stores seconds plus a sub-second nanosecond part, and
  the pair is in bijection with the total nanosecond count, with the same
  equality and ordering.
* Rust `char::is_alphanumeric` (a Unicode property of the standard library,
  not code of this repository) is abstracted as a parameter
  `isalnum : Char → Bool`; the theorems hold for every choice of it.
* Rust `String::len` is the UTF-8 byte length, embedded as
  `String.utf8ByteSize`.
-/

namespace B2

/-- A capability potentially granted by an authorization token
(`enum Capability` in `account.rs`, all 22 variants in source order). -/
inductive Capability where
  | ListKeys
  | WriteKeys
  | DeleteKeys
  | ListAllBucketNames
  | ListBuckets
  | ReadBuckets
  | WriteBuckets
  | DeleteBuckets
  | ReadBucketRetentions
  | WriteBucketRetentions
  | ReadBucketEncryption
  | WriteBucketEncryption
  | ListFiles
  | ReadFiles
  | ShareFiles
  | WriteFiles
  | DeleteFiles
  | ReadFileLegalHolds
  | WriteFileLegalHolds
  | ReadFileRetentions
  | WriteFileRetentions
  | BypassGovernance
  deriving DecidableEq, Repr

/-- The string `{:?}` (Rust `Debug`) produces for a `Capability`; used in the
validation message of `CreateKeyRequestBuilder::build`. -/
def capDebug : Capability → String
  | .ListKeys => "ListKeys"
  | .WriteKeys => "WriteKeys"
  | .DeleteKeys => "DeleteKeys"
  | .ListAllBucketNames => "ListAllBucketNames"
  | .ListBuckets => "ListBuckets"
  | .ReadBuckets => "ReadBuckets"
  | .WriteBuckets => "WriteBuckets"
  | .DeleteBuckets => "DeleteBuckets"
  | .ReadBucketRetentions => "ReadBucketRetentions"
  | .WriteBucketRetentions => "WriteBucketRetentions"
  | .ReadBucketEncryption => "ReadBucketEncryption"
  | .WriteBucketEncryption => "WriteBucketEncryption"
  | .ListFiles => "ListFiles"
  | .ReadFiles => "ReadFiles"
  | .ShareFiles => "ShareFiles"
  | .WriteFiles => "WriteFiles"
  | .DeleteFiles => "DeleteFiles"
  | .ReadFileLegalHolds => "ReadFileLegalHolds"
  | .WriteFileLegalHolds => "WriteFileLegalHolds"
  | .ReadFileRetentions => "ReadFileRetentions"
  | .WriteFileRetentions => "WriteFileRetentions"
  | .BypassGovernance => "BypassGovernance"

/-- Modelled from the spec: `ValidationError` is defined in `crate::error`,
which is not among the provided source files. The spec says a validation
error's message identifies the offending field or rule, and `account.rs`
only ever constructs the `Invalid` variant carrying a message string. -/
inductive ValidationError where
  | Invalid (msg : String)
  deriving DecidableEq

/-- Rust `chrono::Duration`, represented by its total count of nanoseconds. -/
abbrev ChronoDuration := Int

/-- Rust `chrono::Duration::seconds`. -/
def chronoSeconds (s : Int) : ChronoDuration := s * 1000000000

/-- Rust `chrono::Duration::milliseconds`. -/
def chronoMilliseconds (ms : Int) : ChronoDuration := ms * 1000000

/-- Rust `chrono::Duration::days`. -/
def chronoDays (d : Int) : ChronoDuration := d * 86400 * 1000000000

/-- Rust `chrono::Duration::weeks`. -/
def chronoWeeks (w : Int) : ChronoDuration := w * 7 * 86400 * 1000000000

/-- Rust `chrono::Duration::num_milliseconds`: whole milliseconds, rounding
toward zero (Rust integer division truncates toward zero). -/
def numMilliseconds (d : ChronoDuration) : Int := Int.tdiv d 1000000

/-- The `Duration` newtype of `account.rs` wrapping a `chrono::Duration`. -/
structure Duration where
  dur : ChronoDuration
  deriving DecidableEq, Repr

/-- Rust `impl Serialize for Duration`: the wire form is
`serializer.serialize_i64(self.num_milliseconds())`. -/
def Duration.wireSerialize (d : Duration) : Int := numMilliseconds d.dur

/-- Rust `impl Deserialize for Duration`: an integer `i` on the wire becomes
`Duration(chrono::Duration::milliseconds(i))`. -/
def Duration.wireDeserialize (i : Int) : Duration := ⟨chronoMilliseconds i⟩

/-- Rust `struct CreateKeyRequest` (the `name_prefix` field is written
`name_pfx` here). -/
structure CreateKeyRequest where
  account_id : Option String
  capabilities : List Capability
  key_name : String
  valid_duration_in_seconds : Option Duration
  bucket_id : Option String
  name_pfx : Option String
  deriving DecidableEq

/-- Rust `struct CreateKeyRequestBuilder` (the `name_prefix` field is written
`name_pfx` here). -/
structure CreateKeyRequestBuilder where
  capabilities : Option (List Capability)
  name : String
  valid_duration : Option Duration
  bucket_id : Option String
  name_pfx : Option String
  deriving DecidableEq

/-- The character test of `CreateKeyRequestBuilder::new`:
`|c: &char| !(c.is_alphanumeric() || *c == '-')`, with Rust
`char::is_alphanumeric` abstracted as `isalnum`. -/
def invalidChar (isalnum : Char → Bool) (c : Char) : Bool :=
  !(isalnum c || c == '-')

/-- Rust `CreateKeyRequestBuilder::new`: reject names longer than 100 UTF-8
bytes, then reject the first character that is neither alphanumeric nor a
hyphen; otherwise start a builder with every other field unset. -/
def CreateKeyRequestBuilder.new (isalnum : Char → Bool) (name : String) :
    Except ValidationError CreateKeyRequestBuilder :=
  if name.utf8ByteSize > 100 then
    .error (.Invalid "Name must be no more than 100 characters.")
  else
    match name.data.find? (invalidChar isalnum) with
    | some ch =>
        .error (.Invalid ("Invalid character: " ++ ch.toString))
    | none =>
        .ok { capabilities := none, name := name, valid_duration := none,
              bucket_id := none, name_pfx := none }

/-- Rust `CreateKeyRequestBuilder::with_capabilities`: an empty list is rejected
at the setter; a non-empty one is stored. -/
def CreateKeyRequestBuilder.with_capabilities
    (b : CreateKeyRequestBuilder) (caps : List Capability) :
    Except ValidationError CreateKeyRequestBuilder :=
  if caps.isEmpty then
    .error (.Invalid "Key must have at least one capability.")
  else
    .ok { b with capabilities := some caps }

/-- Rust `CreateKeyRequestBuilder::expires_after`: the duration must be at least
one second and less than 1000 days, checked at the setter. -/
def CreateKeyRequestBuilder.expires_after
    (b : CreateKeyRequestBuilder) (dur : ChronoDuration) :
    Except ValidationError CreateKeyRequestBuilder :=
  if dur ≥ chronoDays 1000 then
    .error (.Invalid "Expiration must be less than 1000 days")
  else if dur < chronoSeconds 1 then
    .error (.Invalid "Expiration must be a positive number of seconds")
  else
    .ok { b with valid_duration := some ⟨dur⟩ }

/-- Rust `CreateKeyRequestBuilder::limit_to_bucket`: stores the id, no
validation (`TODO: Validate bucket id.` in the source). -/
def CreateKeyRequestBuilder.limit_to_bucket
    (b : CreateKeyRequestBuilder) (id : String) :
    Except ValidationError CreateKeyRequestBuilder :=
  .ok { b with bucket_id := some id }

/-- Rust `CreateKeyRequestBuilder::with_name_prefix` (written `with_name_pfx`
here): stores the prefix, no validation. -/
def CreateKeyRequestBuilder.with_name_pfx
    (b : CreateKeyRequestBuilder) (p : String) :
    Except ValidationError CreateKeyRequestBuilder :=
  .ok { b with name_pfx := some p }

/-- The capabilities accepted by `CreateKeyRequestBuilder::build` when
`bucket_id` is set: exactly the first seventeen arms of the `match` in the
source (everything except `ListKeys`, `WriteKeys`, `DeleteKeys`,
`WriteBuckets` and `DeleteBuckets`). -/
def bucketScopable : Capability → Bool
  | .ListAllBucketNames => true
  | .ListBuckets => true
  | .ReadBuckets => true
  | .ReadBucketEncryption => true
  | .WriteBucketEncryption => true
  | .ReadBucketRetentions => true
  | .WriteBucketRetentions => true
  | .ListFiles => true
  | .ReadFiles => true
  | .ShareFiles => true
  | .WriteFiles => true
  | .DeleteFiles => true
  | .ReadFileLegalHolds => true
  | .WriteFileLegalHolds => true
  | .ReadFileRetentions => true
  | .WriteFileRetentions => true
  | .BypassGovernance => true
  | _ => false

/-- Rust `CreateKeyRequestBuilder::build`: capabilities must have been set; with
`bucket_id` set, the loop over the capabilities returns at the first one
outside `bucketScopable`, naming it; with `bucket_id` unset, a set
`name_prefix` is rejected; otherwise the request value is assembled
(`account_id` is filled in later by `create_key`). -/
def CreateKeyRequestBuilder.build (b : CreateKeyRequestBuilder) :
    Except ValidationError CreateKeyRequest :=
  match b.capabilities with
  | none =>
      .error (.Invalid "A list of capabilities for the key is required.")
  | some capabilities =>
      if b.bucket_id.isSome then
        match capabilities.find? (fun c => !bucketScopable c) with
        | some cap =>
            .error (.Invalid
              ("Invalid capability when bucket_id is set: " ++ capDebug cap))
        | none =>
            .ok { account_id := none, capabilities := capabilities,
                  key_name := b.name,
                  valid_duration_in_seconds := b.valid_duration,
                  bucket_id := b.bucket_id, name_pfx := b.name_pfx }
      else if b.name_pfx.isSome then
        .error (.Invalid "bucket_id must be set when name_prefix is given")
      else
        .ok { account_id := none, capabilities := capabilities,
              key_name := b.name,
              valid_duration_in_seconds := b.valid_duration,
              bucket_id := b.bucket_id, name_pfx := b.name_pfx }

/-- Rust `struct DownloadAuthorizationRequest` (the `file_name_prefix` field is
written `file_name_pfx` here). -/
structure DownloadAuthorizationRequest where
  bucket_id : String
  file_name_pfx : String
  valid_duration_in_seconds : Duration
  b2_content_disposition : Option String
  b2_content_language : Option String
  b2_expires : Option String
  b2_cache_control : Option String
  b2_content_encoding : Option String
  b2_content_type : Option String
  deriving DecidableEq

/-- Rust `struct DownloadAuthorizationRequestBuilder` (the `file_name_prefix`
field is written `file_name_pfx` here). -/
structure DownloadAuthorizationRequestBuilder where
  bucket_id : Option String
  file_name_pfx : Option String
  valid_duration_in_seconds : Option Duration
  b2_content_disposition : Option String
  b2_content_language : Option String
  b2_expires : Option String
  b2_cache_control : Option String
  b2_content_encoding : Option String
  b2_content_type : Option String
  deriving DecidableEq

/-- Rust `DownloadAuthorizationRequestBuilder::new`: every field unset. -/
def DownloadAuthorizationRequestBuilder.new :
    DownloadAuthorizationRequestBuilder :=
  { bucket_id := none, file_name_pfx := none,
    valid_duration_in_seconds := none, b2_content_disposition := none,
    b2_content_language := none, b2_expires := none,
    b2_cache_control := none, b2_content_encoding := none,
    b2_content_type := none }

/-- Rust `DownloadAuthorizationRequestBuilder::for_bucket_id`. -/
def DownloadAuthorizationRequestBuilder.for_bucket_id
    (b : DownloadAuthorizationRequestBuilder) (id : String) :
    DownloadAuthorizationRequestBuilder :=
  { b with bucket_id := some id }

/-- Rust `DownloadAuthorizationRequestBuilder::with_file_name_prefix` (written
`with_file_name_pfx` here). -/
def DownloadAuthorizationRequestBuilder.with_file_name_pfx
    (b : DownloadAuthorizationRequestBuilder) (name : String) :
    DownloadAuthorizationRequestBuilder :=
  { b with file_name_pfx := some name }

/-- Rust `DownloadAuthorizationRequestBuilder::with_duration`: the duration must
be between one second and one week inclusive, checked at the setter. -/
def DownloadAuthorizationRequestBuilder.with_duration
    (b : DownloadAuthorizationRequestBuilder) (dur : ChronoDuration) :
    Except ValidationError DownloadAuthorizationRequestBuilder :=
  if dur < chronoSeconds 1 || dur > chronoWeeks 1 then
    .error (.Invalid
      "Duration must be between 1 and 604,800 seconds, inclusive")
  else
    .ok { b with valid_duration_in_seconds := some ⟨dur⟩ }

/-- Rust `DownloadAuthorizationRequestBuilder::with_content_disposition`; the
typed header value is already an opaque string in the source
(`ContentDisposition(String)`). -/
def DownloadAuthorizationRequestBuilder.with_content_disposition
    (b : DownloadAuthorizationRequestBuilder) (s : String) :
    DownloadAuthorizationRequestBuilder :=
  { b with b2_content_disposition := some s }

/-- Rust `DownloadAuthorizationRequestBuilder::with_content_language`. -/
def DownloadAuthorizationRequestBuilder.with_content_language
    (b : DownloadAuthorizationRequestBuilder) (s : String) :
    DownloadAuthorizationRequestBuilder :=
  { b with b2_content_language := some s }

/-- Rust `DownloadAuthorizationRequestBuilder::with_expiration`; the `Expires`
header value is stored via its string rendering, modelled opaquely. -/
def DownloadAuthorizationRequestBuilder.with_expiration
    (b : DownloadAuthorizationRequestBuilder) (s : String) :
    DownloadAuthorizationRequestBuilder :=
  { b with b2_expires := some s }

/-- Rust `DownloadAuthorizationRequestBuilder::with_cache_control`; the
`CacheDirective` header value is stored via its string rendering, modelled
opaquely. -/
def DownloadAuthorizationRequestBuilder.with_cache_control
    (b : DownloadAuthorizationRequestBuilder) (s : String) :
    DownloadAuthorizationRequestBuilder :=
  { b with b2_cache_control := some s }

/-- Rust `DownloadAuthorizationRequestBuilder::with_content_encoding`; the
`ContentEncoding` header value is stored via its string rendering, modelled
opaquely. -/
def DownloadAuthorizationRequestBuilder.with_content_encoding
    (b : DownloadAuthorizationRequestBuilder) (s : String) :
    DownloadAuthorizationRequestBuilder :=
  { b with b2_content_encoding := some s }

/-- Rust `DownloadAuthorizationRequestBuilder::with_content_type`; the `Mime`
header value is stored via its string rendering, modelled opaquely. -/
def DownloadAuthorizationRequestBuilder.with_content_type
    (b : DownloadAuthorizationRequestBuilder) (s : String) :
    DownloadAuthorizationRequestBuilder :=
  { b with b2_content_type := some s }

/-- Rust `DownloadAuthorizationRequestBuilder::build`: the three required fields
are demanded in order — bucket id, then file name prefix, then duration —
each absence yielding its own message; the six header overrides pass
through untouched. -/
def DownloadAuthorizationRequestBuilder.build
    (b : DownloadAuthorizationRequestBuilder) :
    Except ValidationError DownloadAuthorizationRequest :=
  match b.bucket_id with
  | none => .error (.Invalid "A bucket ID must be provided")
  | some bucket_id =>
      match b.file_name_pfx with
      | none => .error (.Invalid "A filename prefix must be provided")
      | some fnp =>
          match b.valid_duration_in_seconds with
          | none =>
              .error (.Invalid
                "The duration of the authorization token must be set")
          | some d =>
              .ok { bucket_id := bucket_id, file_name_pfx := fnp,
                    valid_duration_in_seconds := d,
                    b2_content_disposition := b.b2_content_disposition,
                    b2_content_language := b.b2_content_language,
                    b2_expires := b.b2_expires,
                    b2_cache_control := b.b2_cache_control,
                    b2_content_encoding := b.b2_content_encoding,
                    b2_content_type := b.b2_content_type }

/-- A JSON value, for the response-envelope decoding step. -/
inductive Json where
  | null
  | bool (b : Bool)
  | num (n : Int)
  | str (s : String)
  | arr (xs : List Json)
  | obj (fields : List (String × Json))

/-- Look up a field of a JSON object. -/
def Json.getField : Json → String → Option Json
  | .obj fields, k => fields.lookup k
  | _, _ => none

/-- Modelled from the spec: `B2Error` is defined in `crate::error`, which
is not among the provided source files. The spec gives its wire shape as
the error envelope `\x7bcode: string, status: integer, message: string\x7d`. -/
structure B2Error where
  code : String
  status : Int
  message : String
  deriving DecidableEq

/-- Modelled from the spec: the deserializer of `B2Error` accepts exactly
the error envelope — an object carrying a string `code`, an integer
`status` and a string `message`. -/
def decodeB2Error (j : Json) : Option B2Error :=
  match j.getField "code", j.getField "status", j.getField "message" with
  | some (.str c), some (.num s), some (.str m) =>
      some { code := c, status := s, message := m }
  | _, _, _ => none

/-- The outcome of decoding one API response in `authorize_account` (and
the other operations): the `B2Result::Ok` arm, the `B2Result::Err` arm
(surfaced as `Error::B2`), or a failure of `serde_json::from_value` itself
(a deserialization error distinct from a service error). -/
inductive ApiOutcome (T : Type) where
  | ok (t : T)
  | b2 (e : B2Error)
  | decodeFailed

/-- The untagged two-variant decode of `enum B2Result<T>`: serde tries the
variants in declaration order, so the success shape `T` is attempted first
and only if it fails is the payload reparsed as a `B2Error`; if neither
shape matches, `serde_json::from_value` fails. -/
def decodeB2Result {T : Type} (decodeT : Json → Option T) (j : Json) :
    ApiOutcome T :=
  match decodeT j with
  | some t => .ok t
  | none =>
      match decodeB2Error j with
      | some e => .b2 e
      | none => .decodeFailed

/-- A concrete stand-in for Rust `char::is_alphanumeric`, used to
instantiate theorems that are parametric in the alphanumeric predicate:
ASCII letters and digits, plus the Greek and Coptic block (all of whose
letters are Unicode-alphanumeric in Rust). On every character appearing in
this development it agrees with Rust. -/
def asciiOrGreekAlnum (c : Char) : Bool :=
  c.isAlphanum || (0x370 ≤ c.toNat && c.toNat ≤ 0x3FF)

/-- A sample success-shape decoder — an object carrying an integer field
named x — used to instantiate the envelope-decode theorem on concrete
payloads. -/
def decodeSampleX (j : Json) : Option Int :=
  match j.getField "x" with
  | some (.num n) => some n
  | _ => none

/-- Auxiliary: a list of characters is no longer than its UTF-8 byte
count, since every character encodes to at least one byte. -/
theorem length_le_utf8ByteSize_go (l : List Char) :
    l.length ≤ String.utf8ByteSize.go l := by
  induction l with
  | nil => simp [String.utf8ByteSize.go]
  | cons c cs ih =>
    have hc : 1 ≤ c.utf8Size := Char.utf8Size_pos c
    simp only [List.length_cons, String.utf8ByteSize.go]
    omega

/-- Auxiliary: a string has no more characters than UTF-8 bytes. -/
theorem length_le_utf8ByteSize (s : String) : s.length ≤ s.utf8ByteSize := by
  cases s with
  | mk data => exact length_le_utf8ByteSize_go data

/-- C7: for every duration expressible as a whole number of milliseconds,
serializing it to the wire integer-millisecond encoding and deserializing
that integer back yields exactly the original duration. -/
theorem duration_wire_roundtrip (d : Duration)
    (h : ∃ k : Int, d.dur = chronoMilliseconds k) :
    Duration.wireDeserialize (Duration.wireSerialize d) = d := by
  obtain ⟨k, hk⟩ := h
  cases d with
  | mk dur =>
    simp only [Duration.wireSerialize, Duration.wireDeserialize,
      numMilliseconds, chronoMilliseconds] at hk ⊢
    subst hk
    rw [Int.mul_tdiv_cancel k (by norm_num)]

/-- Witness for C7, at a duration of 1500 milliseconds. -/
theorem duration_wire_roundtrip_witness :
    Duration.wireDeserialize
      (Duration.wireSerialize ⟨chronoMilliseconds 1500⟩) =
      (⟨chronoMilliseconds 1500⟩ : Duration) :=
  duration_wire_roundtrip ⟨chronoMilliseconds 1500⟩ ⟨1500, rfl⟩

/-- C2: whenever `name_prefix` is set and `bucket_id` is not, `build()`
fails with a validation error (with the prefix-needs-bucket message when
capabilities were set, and with the missing-capabilities message when they
were not), regardless of the other fields. -/
theorem createKey_build_namePfx_requires_bucket
    (b : CreateKeyRequestBuilder) (p : String)
    (hp : b.name_pfx = some p) (hb : b.bucket_id = none) :
    b.build.isOk = false
    ∧ (b.capabilities = none →
      b.build =
        .error (.Invalid "A list of capabilities for the key is required."))
    ∧ (∀ caps, b.capabilities = some caps →
      b.build =
        .error (.Invalid "bucket_id must be set when name_prefix is given")) := by
  refine ⟨?_, fun hc => ?_, fun caps hc => ?_⟩
  · cases hc : b.capabilities with
    | none =>
        simp [CreateKeyRequestBuilder.build, hc, Except.isOk, Except.toBool]
    | some caps =>
        simp [CreateKeyRequestBuilder.build, hc, hb, hp, Except.isOk,
          Except.toBool]
  · simp [CreateKeyRequestBuilder.build, hc]
  · simp [CreateKeyRequestBuilder.build, hc, hb, hp]

/-- Witness for C2: a builder with capabilities and a name prefix but no
bucket id fails to build. -/
theorem createKey_build_namePfx_requires_bucket_witness :
    ({ capabilities := some [Capability.ReadFiles], name := "key",
       valid_duration := none, bucket_id := none,
       name_pfx := some "docs/" } : CreateKeyRequestBuilder).build.isOk =
      false :=
  (createKey_build_namePfx_requires_bucket _ "docs/" rfl rfl).1

/-- C5: the download-authorization duration setter accepts exactly the
durations between 1 second and 1 week inclusive, failing at the setter
with a validation error outside that range, and `build()` treats every
stored duration value alike. -/
theorem downloadAuth_with_duration_bounds
    (b : DownloadAuthorizationRequestBuilder) (d : ChronoDuration) :
    (chronoSeconds 1 ≤ d ∧ d ≤ chronoWeeks 1 →
      b.with_duration d =
        .ok { b with valid_duration_in_seconds := some ⟨d⟩ })
    ∧ (d < chronoSeconds 1 ∨ chronoWeeks 1 < d →
      b.with_duration d = .error (.Invalid
        "Duration must be between 1 and 604,800 seconds, inclusive"))
    ∧ (∀ v₁ v₂ : Duration,
      ({ b with valid_duration_in_seconds := some v₁ }
        : DownloadAuthorizationRequestBuilder).build.isOk =
      ({ b with valid_duration_in_seconds := some v₂ }
        : DownloadAuthorizationRequestBuilder).build.isOk) := by
  refine ⟨fun h => ?_, fun h => ?_, fun v₁ v₂ => ?_⟩
  · have hcond : ¬((d < chronoSeconds 1 || d > chronoWeeks 1) = true) := by
      simp only [Bool.or_eq_true, decide_eq_true_eq, not_or, not_lt]
      exact ⟨h.1, h.2⟩
    unfold DownloadAuthorizationRequestBuilder.with_duration
    rw [if_neg hcond]
  · have hcond : (d < chronoSeconds 1 || d > chronoWeeks 1) = true := by
      rcases h with h | h
      · simp [h]
      · simp [h]
    unfold DownloadAuthorizationRequestBuilder.with_duration
    rw [if_pos hcond]
  · cases hb : b.bucket_id <;> cases hf : b.file_name_pfx <;>
      simp [DownloadAuthorizationRequestBuilder.build, hb, hf, Except.isOk,
        Except.toBool]

/-- Witness for C5: exactly one second is accepted and one week plus one
second is rejected. -/
theorem downloadAuth_with_duration_bounds_witness :
    DownloadAuthorizationRequestBuilder.new.with_duration (chronoSeconds 1) =
      .ok { DownloadAuthorizationRequestBuilder.new with
            valid_duration_in_seconds := some ⟨chronoSeconds 1⟩ } ∧
    DownloadAuthorizationRequestBuilder.new.with_duration
      (chronoWeeks 1 + chronoSeconds 1) =
      .error (.Invalid
        "Duration must be between 1 and 604,800 seconds, inclusive") :=
  ⟨(downloadAuth_with_duration_bounds
      DownloadAuthorizationRequestBuilder.new (chronoSeconds 1)).1
      (by constructor <;> decide),
   (downloadAuth_with_duration_bounds
      DownloadAuthorizationRequestBuilder.new
      (chronoWeeks 1 + chronoSeconds 1)).2.1 (Or.inr (by decide))⟩

/-- C8: the key-expiry setter accepts exactly the durations with
1 second ≤ d < 1000 days, failing at the setter with a validation error
otherwise, and `build()` never inspects the stored duration — its outcome
is the outcome for an unset duration with the stored value merely copied
into the request. -/
theorem createKey_expires_after_bounds
    (b : CreateKeyRequestBuilder) (d : ChronoDuration) :
    (chronoSeconds 1 ≤ d → d < chronoDays 1000 →
      b.expires_after d = .ok { b with valid_duration := some ⟨d⟩ })
    ∧ (d < chronoSeconds 1 →
      b.expires_after d =
        .error (.Invalid "Expiration must be a positive number of seconds"))
    ∧ (chronoDays 1000 ≤ d →
      b.expires_after d =
        .error (.Invalid "Expiration must be less than 1000 days"))
    ∧ (∀ v : Option Duration,
      ({ b with valid_duration := v } : CreateKeyRequestBuilder).build =
        ({ b with valid_duration := none }
          : CreateKeyRequestBuilder).build.map
          (fun r => { r with valid_duration_in_seconds := v })) := by
  refine ⟨fun h1 h2 => ?_, fun h => ?_, fun h => ?_, fun v => ?_⟩
  · unfold CreateKeyRequestBuilder.expires_after
    rw [if_neg (not_le.mpr h2), if_neg (not_lt.mpr h1)]
  · have hlt : d < chronoDays 1000 :=
      lt_of_lt_of_le h (by decide : chronoSeconds 1 ≤ chronoDays 1000)
    unfold CreateKeyRequestBuilder.expires_after
    rw [if_neg (not_le.mpr hlt), if_pos h]
  · unfold CreateKeyRequestBuilder.expires_after
    rw [if_pos h]
  · cases hc : b.capabilities with
    | none => simp [CreateKeyRequestBuilder.build, hc, Except.map]
    | some caps =>
        cases hb : b.bucket_id with
        | none =>
            cases hp : b.name_pfx <;>
              simp [CreateKeyRequestBuilder.build, hc, hb, hp, Except.map]
        | some id =>
            cases hf : caps.find? (fun c => !bucketScopable c) <;>
              simp [CreateKeyRequestBuilder.build, hc, hb, hf, Except.map]

/-- Witness for C8: exactly one second is accepted and exactly 1000 days
is rejected. -/
theorem createKey_expires_after_bounds_witness :
    ({ capabilities := none, name := "key", valid_duration := none,
       bucket_id := none, name_pfx := none }
      : CreateKeyRequestBuilder).expires_after (chronoSeconds 1) =
      .ok { capabilities := none, name := "key",
            valid_duration := some ⟨chronoSeconds 1⟩, bucket_id := none,
            name_pfx := none } ∧
    ({ capabilities := none, name := "key", valid_duration := none,
       bucket_id := none, name_pfx := none }
      : CreateKeyRequestBuilder).expires_after (chronoDays 1000) =
      .error (.Invalid "Expiration must be less than 1000 days") :=
  ⟨(createKey_expires_after_bounds _ (chronoSeconds 1)).1 (by decide)
      (by decide),
   (createKey_expires_after_bounds _ (chronoDays 1000)).2.2.1 (by decide)⟩

/-- C1 counterexample: the claim says that with `bucket_id` set, the
account-level capability of listing all bucket names must be rejected by
`build()`; the code instead accepts it — `ListAllBucketNames` is in the
allowed arm of the `match`, so `build()` succeeds on a builder whose
capability list is exactly `[ListAllBucketNames]` with a bucket id set. -/
theorem createKey_bucket_listAllBucketNames_accepted :
    ({ capabilities := some [Capability.ListAllBucketNames], name := "key",
       valid_duration := none, bucket_id := some "bucketId",
       name_pfx := none } : CreateKeyRequestBuilder).build =
      .ok { account_id := none,
            capabilities := [Capability.ListAllBucketNames],
            key_name := "key", valid_duration_in_seconds := none,
            bucket_id := some "bucketId", name_pfx := none } := rfl

/-- C1 (amended): with `bucket_id` set and a non-empty capability list
set, `build()` succeeds when every capability is in the bucket-scopable
subset, and fails naming the first offending capability otherwise — where
the bucket-scopable subset contains `ListAllBucketNames`, `ListBuckets`
and `ReadBuckets`, and exactly `ListKeys`, `WriteKeys`, `DeleteKeys`,
`WriteBuckets` and `DeleteBuckets` are outside it. -/
theorem createKey_build_bucket_capability_check
    (b : CreateKeyRequestBuilder) (caps : List Capability) (id : String)
    (hc : b.capabilities = some caps) (_hne : caps ≠ [])
    (hb : b.bucket_id = some id) :
    ((∀ c ∈ caps, bucketScopable c = true) →
      b.build = .ok { account_id := none, capabilities := caps,
                      key_name := b.name,
                      valid_duration_in_seconds := b.valid_duration,
                      bucket_id := b.bucket_id, name_pfx := b.name_pfx })
    ∧ (∀ c, caps.find? (fun x => !bucketScopable x) = some c →
        bucketScopable c = false ∧
        b.build = .error (.Invalid
          ("Invalid capability when bucket_id is set: " ++ capDebug c)))
    ∧ bucketScopable .ListAllBucketNames = true
    ∧ bucketScopable .ListBuckets = true
    ∧ bucketScopable .ReadBuckets = true
    ∧ bucketScopable .ListKeys = false
    ∧ bucketScopable .WriteKeys = false
    ∧ bucketScopable .DeleteKeys = false
    ∧ bucketScopable .WriteBuckets = false
    ∧ bucketScopable .DeleteBuckets = false := by
  refine ⟨fun hall => ?_, fun c hfind => ?_,
    rfl, rfl, rfl, rfl, rfl, rfl, rfl, rfl⟩
  · have hfind : caps.find? (fun x => !bucketScopable x) = none :=
      List.find?_eq_none.mpr (fun x hx => by simp [hall x hx])
    simp [CreateKeyRequestBuilder.build, hc, hb, hfind]
  · have hno : bucketScopable c = false := by
      have := List.find?_some hfind
      simpa using this
    exact ⟨hno, by simp [CreateKeyRequestBuilder.build, hc, hb, hfind]⟩

/-- Witness for the amended C1: with a bucket id set, a capability list
holding `WriteKeys` is rejected with a message naming `WriteKeys`. -/
theorem createKey_build_bucket_capability_check_witness :
    ({ capabilities := some [Capability.ListFiles, Capability.WriteKeys],
       name := "key", valid_duration := none, bucket_id := some "bucketId",
       name_pfx := none } : CreateKeyRequestBuilder).build =
      .error (.Invalid
        "Invalid capability when bucket_id is set: WriteKeys") :=
  ((createKey_build_bucket_capability_check _
      [Capability.ListFiles, Capability.WriteKeys] "bucketId" rfl
      (by decide) rfl).2.1 Capability.WriteKeys rfl).2

/-- C6: an empty capability list is rejected eagerly at the setter with
its own message, a never-set capability list is rejected only at
`build()` with a different message, and with a non-empty list set neither
of these two errors can occur. -/
theorem createKey_capabilities_absent_vs_empty
    (b : CreateKeyRequestBuilder) (caps : List Capability) :
    (b.with_capabilities [] =
      .error (.Invalid "Key must have at least one capability."))
    ∧ (caps ≠ [] →
      b.with_capabilities caps = .ok { b with capabilities := some caps })
    ∧ (b.capabilities = none →
      b.build =
        .error (.Invalid "A list of capabilities for the key is required."))
    ∧ ("Key must have at least one capability." ≠
        "A list of capabilities for the key is required.")
    ∧ (b.capabilities = some caps → caps ≠ [] →
        b.build ≠
          .error (.Invalid "Key must have at least one capability.")
        ∧ b.build ≠
          .error
            (.Invalid "A list of capabilities for the key is required.")) := by
  refine ⟨rfl, fun hne => ?_, fun hc => ?_, by decide, fun hc hne => ?_⟩
  · unfold CreateKeyRequestBuilder.with_capabilities
    rw [if_neg (by simpa using hne)]
  · simp [CreateKeyRequestBuilder.build, hc]
  · cases hbk : b.bucket_id with
    | none =>
        cases hp : b.name_pfx <;>
          constructor <;>
          simp [CreateKeyRequestBuilder.build, hc, hbk, hp]
    | some id =>
        cases hf : caps.find? (fun c => !bucketScopable c) with
        | none =>
            constructor <;>
              simp [CreateKeyRequestBuilder.build, hc, hbk, hf]
        | some cap =>
            constructor <;>
              simp [CreateKeyRequestBuilder.build, hc, hbk, hf] <;>
              cases cap <;> decide

/-- Witness for C6: the eager empty-list setter error and the build-time
missing-list error, with their two distinct messages, on a concrete
builder; and a builder with a non-empty list set avoids both. -/
theorem createKey_capabilities_absent_vs_empty_witness :
    ({ capabilities := none, name := "key", valid_duration := none,
       bucket_id := none, name_pfx := none }
      : CreateKeyRequestBuilder).with_capabilities [] =
      .error (.Invalid "Key must have at least one capability.") ∧
    ({ capabilities := none, name := "key", valid_duration := none,
       bucket_id := none, name_pfx := none }
      : CreateKeyRequestBuilder).build =
      .error (.Invalid "A list of capabilities for the key is required.") ∧
    ({ capabilities := some [Capability.ReadFiles], name := "key",
       valid_duration := none, bucket_id := none, name_pfx := none }
      : CreateKeyRequestBuilder).build ≠
      .error (.Invalid "Key must have at least one capability.") :=
  ⟨(createKey_capabilities_absent_vs_empty
      { capabilities := none, name := "key", valid_duration := none,
        bucket_id := none, name_pfx := none } []).1,
   (createKey_capabilities_absent_vs_empty
      { capabilities := none, name := "key", valid_duration := none,
        bucket_id := none, name_pfx := none } []).2.2.1 rfl,
   ((createKey_capabilities_absent_vs_empty
      { capabilities := some [Capability.ReadFiles], name := "key",
        valid_duration := none, bucket_id := none, name_pfx := none }
      [Capability.ReadFiles]).2.2.2.2 rfl (by decide)).1⟩

/-- C9: the download-authorization `build()` succeeds exactly when bucket
id, file-name prefix and duration are all set; each missing required
field yields its own validation error, checked in that order, with three
pairwise-distinct messages; the six HTTP-shaping overrides never affect
whether `build()` succeeds. -/
theorem downloadAuth_build_required_fields
    (b : DownloadAuthorizationRequestBuilder) :
    (b.build.isOk = (b.bucket_id.isSome && (b.file_name_pfx.isSome &&
      b.valid_duration_in_seconds.isSome)))
    ∧ (b.bucket_id = none →
      b.build = .error (.Invalid "A bucket ID must be provided"))
    ∧ (∀ id, b.bucket_id = some id → b.file_name_pfx = none →
      b.build = .error (.Invalid "A filename prefix must be provided"))
    ∧ (∀ id p, b.bucket_id = some id → b.file_name_pfx = some p →
      b.valid_duration_in_seconds = none →
      b.build = .error (.Invalid
        "The duration of the authorization token must be set"))
    ∧ (("A bucket ID must be provided"
        ≠ "A filename prefix must be provided")
      ∧ ("A bucket ID must be provided"
        ≠ "The duration of the authorization token must be set")
      ∧ ("A filename prefix must be provided"
        ≠ "The duration of the authorization token must be set"))
    ∧ (∀ cd cl ex cc ce ct,
      ({ b with b2_content_disposition := cd, b2_content_language := cl,
                b2_expires := ex, b2_cache_control := cc,
                b2_content_encoding := ce, b2_content_type := ct }
        : DownloadAuthorizationRequestBuilder).build.isOk =
        b.build.isOk) := by
  refine ⟨?_, fun hb => ?_, fun id hb hf => ?_, fun id p hb hf hd => ?_,
    ⟨by decide, by decide, by decide⟩, fun cd cl ex cc ce ct => ?_⟩
  · cases hb : b.bucket_id <;> cases hf : b.file_name_pfx <;>
      cases hd : b.valid_duration_in_seconds <;>
      simp [DownloadAuthorizationRequestBuilder.build, hb, hf, hd,
        Except.isOk, Except.toBool]
  · simp [DownloadAuthorizationRequestBuilder.build, hb]
  · simp [DownloadAuthorizationRequestBuilder.build, hb, hf]
  · simp [DownloadAuthorizationRequestBuilder.build, hb, hf, hd]
  · cases hb : b.bucket_id <;> cases hf : b.file_name_pfx <;>
      cases hd : b.valid_duration_in_seconds <;>
      simp [DownloadAuthorizationRequestBuilder.build, hb, hf, hd,
        Except.isOk, Except.toBool]

/-- Witness for C9: with only the bucket id set, `build()` fails naming
the file-name prefix. -/
theorem downloadAuth_build_required_fields_witness :
    ({ DownloadAuthorizationRequestBuilder.new with
       bucket_id := some "bucketId" }
      : DownloadAuthorizationRequestBuilder).build =
      .error (.Invalid "A filename prefix must be provided") :=
  (downloadAuth_build_required_fields _).2.2.1 "bucketId" rfl rfl

/-- C3: key-name validation happens in `CreateKeyRequestBuilder::new` —
a name of 101 bytes (or of 101 characters) is rejected, a name containing
a character that is neither alphanumeric nor a hyphen is rejected, a
100-character all-hyphen name is accepted, and `build()` never looks at
the name: its outcome for any name is the outcome for the empty name with
the name merely copied into the request. -/
theorem createKey_name_validation_at_new (isalnum : Char → Bool)
    (name : String) :
    (name.utf8ByteSize = 101 →
      CreateKeyRequestBuilder.new isalnum name =
        .error (.Invalid "Name must be no more than 100 characters."))
    ∧ (name.length = 101 →
      ∀ r, CreateKeyRequestBuilder.new isalnum name ≠ .ok r)
    ∧ ((∃ c ∈ name.data, isalnum c = false ∧ c ≠ '-') →
      ∀ r, CreateKeyRequestBuilder.new isalnum name ≠ .ok r)
    ∧ (CreateKeyRequestBuilder.new isalnum
        (String.mk (List.replicate 100 '-')) =
      .ok { capabilities := none,
            name := String.mk (List.replicate 100 '-'),
            valid_duration := none, bucket_id := none, name_pfx := none })
    ∧ (∀ b : CreateKeyRequestBuilder, ∀ n : String,
      ({ b with name := n } : CreateKeyRequestBuilder).build =
        ({ b with name := "" } : CreateKeyRequestBuilder).build.map
          (fun r => { r with key_name := n })) := by
  refine ⟨fun h => ?_, fun h => ?_, fun h r => ?_, ?_, fun b n => ?_⟩
  · unfold CreateKeyRequestBuilder.new
    rw [if_pos (by omega)]
  · have hlen : name.utf8ByteSize > 100 := by
      have := length_le_utf8ByteSize name
      omega
    unfold CreateKeyRequestBuilder.new
    rw [if_pos hlen]
    intro r
    simp
  · obtain ⟨c, hmem, hfa, hne⟩ := h
    unfold CreateKeyRequestBuilder.new
    by_cases hlen : name.utf8ByteSize > 100
    · rw [if_pos hlen]; simp
    · rw [if_neg hlen]
      have hsome : (name.data.find? (invalidChar isalnum)).isSome := by
        refine List.find?_isSome.mpr ⟨c, hmem, ?_⟩
        simp [invalidChar, hfa, hne]
      cases hfind : name.data.find? (invalidChar isalnum) with
      | none => rw [hfind] at hsome; simp at hsome
      | some ch => simp
  · have hlen :
        ¬((String.mk (List.replicate 100 '-')).utf8ByteSize > 100) := by
      decide
    have hfind : (String.mk (List.replicate 100 '-')).data.find?
        (invalidChar isalnum) = none := by
      refine List.find?_eq_none.mpr (fun x hx => ?_)
      have hx' : x = '-' := List.eq_of_mem_replicate hx
      subst hx'
      simp [invalidChar]
    unfold CreateKeyRequestBuilder.new
    rw [if_neg hlen, hfind]
  · cases hc : b.capabilities with
    | none => simp [CreateKeyRequestBuilder.build, hc, Except.map]
    | some caps =>
        cases hb : b.bucket_id with
        | none =>
            cases hp : b.name_pfx <;>
              simp [CreateKeyRequestBuilder.build, hc, hb, hp, Except.map]
        | some id =>
            cases hf : caps.find? (fun c => !bucketScopable c) <;>
              simp [CreateKeyRequestBuilder.build, hc, hb, hf, Except.map]

/-- Witness for C3: a 101-character ASCII name is rejected, a name with an
underscore is rejected, and the 100-hyphen name is accepted, under the
concrete alphanumeric predicate. -/
theorem createKey_name_validation_at_new_witness :
    CreateKeyRequestBuilder.new asciiOrGreekAlnum
      (String.mk (List.replicate 101 'a')) =
      .error (.Invalid "Name must be no more than 100 characters.") ∧
    CreateKeyRequestBuilder.new asciiOrGreekAlnum "bad_name" ≠
      .ok { capabilities := none, name := "bad_name",
            valid_duration := none, bucket_id := none, name_pfx := none } ∧
    CreateKeyRequestBuilder.new asciiOrGreekAlnum
      (String.mk (List.replicate 100 '-')) =
      .ok { capabilities := none,
            name := String.mk (List.replicate 100 '-'),
            valid_duration := none, bucket_id := none, name_pfx := none } :=
  ⟨(createKey_name_validation_at_new asciiOrGreekAlnum
      (String.mk (List.replicate 101 'a'))).1 (by decide),
   (createKey_name_validation_at_new asciiOrGreekAlnum "bad_name").2.2.1
      ⟨'_', by decide, by decide, by decide⟩ _,
   (createKey_name_validation_at_new asciiOrGreekAlnum
      "unused").2.2.2.1⟩

/-- C10: `CreateKeyRequestBuilder::new` succeeds exactly when the name is
at most 100 UTF-8 bytes long and every character is alphanumeric or a
hyphen; the limit counts bytes, so any over-100-byte name is rejected for
length even when every character passes the character check. -/
theorem createKey_new_exact_characterization (isalnum : Char → Bool)
    (name : String) :
    ((∃ b, CreateKeyRequestBuilder.new isalnum name = .ok b) ↔
      name.utf8ByteSize ≤ 100 ∧
        ∀ c ∈ name.data, isalnum c = true ∨ c = '-')
    ∧ (name.utf8ByteSize > 100 →
      CreateKeyRequestBuilder.new isalnum name =
        .error (.Invalid "Name must be no more than 100 characters.")) := by
  constructor
  · constructor
    · rintro ⟨b, hb⟩
      unfold CreateKeyRequestBuilder.new at hb
      by_cases hlen : name.utf8ByteSize > 100
      · rw [if_pos hlen] at hb
        exact absurd hb (by simp)
      · rw [if_neg hlen] at hb
        refine ⟨by omega, fun c hc => ?_⟩
        cases hfind : name.data.find? (invalidChar isalnum) with
        | some ch =>
            rw [hfind] at hb
            exact absurd hb (by simp)
        | none =>
            have hinv := List.find?_eq_none.mp hfind c hc
            simp [invalidChar] at hinv
            cases hia : isalnum c with
            | true => exact Or.inl rfl
            | false => exact Or.inr (hinv hia)
    · rintro ⟨hlen, hok⟩
      have hfind : name.data.find? (invalidChar isalnum) = none := by
        refine List.find?_eq_none.mpr (fun x hx => ?_)
        simp only [invalidChar, Bool.not_eq_true, Bool.not_eq_true,
          Bool.or_eq_false_iff, beq_eq_false_iff_ne, ne_eq]
        rcases hok x hx with h | h
        · rw [h]; simp
        · rw [h]; simp [invalidChar]
      unfold CreateKeyRequestBuilder.new
      rw [if_neg (by omega), hfind]
      exact ⟨_, rfl⟩
  · intro h
    unfold CreateKeyRequestBuilder.new
    rw [if_pos h]

/-- Witness for C10: fifty-one copies of the Greek letter alpha form a
51-character name whose every character passes the character check, yet
its 102 UTF-8 bytes exceed the limit and `new` rejects it for length. -/
theorem createKey_new_exact_characterization_witness :
    (String.mk (List.replicate 51 'α')).length = 51 ∧
    (String.mk (List.replicate 51 'α')).utf8ByteSize = 102 ∧
    asciiOrGreekAlnum 'α' = true ∧
    CreateKeyRequestBuilder.new asciiOrGreekAlnum
      (String.mk (List.replicate 51 'α')) =
      .error (.Invalid "Name must be no more than 100 characters.") :=
  ⟨by decide, by decide, by decide,
   (createKey_new_exact_characterization asciiOrGreekAlnum
      (String.mk (List.replicate 51 'α'))).2 (by decide)⟩

/-- C4: the envelope decoder tries the success shape first — a payload the
success decoder accepts yields that typed value; when the success decoder
fails, an error-shaped payload (string `code`, integer `status`, string
`message`) yields a service error carrying that exact code; when neither
shape matches, the decode fails with an outcome distinct from both the
success and the service-error outcomes. -/
theorem b2Result_untagged_decode {T : Type} (decodeT : Json → Option T)
    (j : Json) :
    (∀ t, decodeT j = some t → decodeB2Result decodeT j = .ok t)
    ∧ (∀ c s m, decodeT j = none →
      j.getField "code" = some (.str c) →
      j.getField "status" = some (.num s) →
      j.getField "message" = some (.str m) →
      decodeB2Result decodeT j =
        .b2 { code := c, status := s, message := m })
    ∧ (decodeT j = none → decodeB2Error j = none →
      decodeB2Result decodeT j = .decodeFailed)
    ∧ (∀ e : B2Error, (ApiOutcome.decodeFailed : ApiOutcome T) ≠ .b2 e)
    ∧ (∀ (t : T) (e : B2Error),
      (ApiOutcome.ok t : ApiOutcome T) ≠ .b2 e) := by
  refine ⟨fun t ht => ?_, fun c s m ht hc hs hm => ?_, fun ht he => ?_,
    fun e h => ?_, fun t e h => ?_⟩
  · simp [decodeB2Result, ht]
  · simp [decodeB2Result, decodeB2Error, ht, hc, hs, hm]
  · simp [decodeB2Result, ht, he]
  · exact ApiOutcome.noConfusion h
  · exact ApiOutcome.noConfusion h

/-- Witness for C4: a success-shaped payload, an error-shaped payload and
a payload of neither shape, decoded with the sample success decoder. -/
theorem b2Result_untagged_decode_witness :
    decodeB2Result decodeSampleX (Json.obj [("x", Json.num 5)]) =
      .ok 5 ∧
    decodeB2Result decodeSampleX
      (Json.obj [("code", Json.str "bad_auth_token"),
                 ("status", Json.num 401),
                 ("message", Json.str "denied")]) =
      .b2 { code := "bad_auth_token", status := 401, message := "denied" } ∧
    decodeB2Result decodeSampleX (Json.str "junk") = .decodeFailed :=
  ⟨(b2Result_untagged_decode decodeSampleX
      (Json.obj [("x", Json.num 5)])).1 5 rfl,
   (b2Result_untagged_decode decodeSampleX
      (Json.obj [("code", Json.str "bad_auth_token"),
                 ("status", Json.num 401),
                 ("message", Json.str "denied")])).2.1 "bad_auth_token" 401
      "denied" rfl rfl rfl rfl,
   (b2Result_untagged_decode decodeSampleX (Json.str "junk")).2.2.1
      rfl rfl⟩

end B2
